import Mathlib

/-
Verification of the rotary-dial command core of PiRotary
(src/smartphone/PiRotary.py).

The Python module keeps its whole state in module-level globals and GPIO
pin levels; interrupt handlers (hangout, dial_detect, pulse_count) mutate
them.  We embed that state as one record and each Python function as a
state transformer with the same name.  External effects (TTS, mp3 player,
weather process, reboot) do not touch the core state; we record the
observable ones that the claims mention: the list of track indices handed
to the player (played), the net power level of the amplifier produced by
the timed button pulses (ampPowered, toggled once per ampli_on_off call),
and whether the reboot command was issued (rebooted).

Blocking actions run with interrupts released; the physical line level
(pin_phone_hangout) can change while they run.  The dispatcher therefore
takes two environment parameters: lineRead, the value play_all_tracks
reads from the line pin after each track, and lineAfter, the line level
when the action returns.  The post-action re-enable check in the source
reads the hangout LED output pin (pin_hangout_led), not the line pin, and
the embedding keeps that distinction.
-/

namespace PiRotary

/-- Module state: the Python globals of PiRotary.py together with the GPIO
output-pin levels, the callback registrations, and the observable traces of
the external effects. -/
structure PState where
  /-- dialed_number, the digit string, as the list of its digits. -/
  dialed_number : List Nat
  /-- pulses, the raw pulse counter of the rotary dialer. -/
  pulses : Nat
  /-- dialer_status, true while a digit rotation is in progress. -/
  dialer_status : Bool
  /-- track_position, the current playing track index. -/
  track_position : Nat
  /-- is_playing, the tracks-playing status flag. -/
  is_playing : Bool
  /-- ampli_status, the expected-powered amplifier flag. -/
  ampli_status : Bool
  /-- tracks, the configured number of tracks. -/
  tracks : Nat
  /-- track_list, the playlist file names. -/
  track_list : List String
  /-- track_titles, the playlist titles. -/
  track_titles : List String
  /-- Level of the phone hangout input pin: true = PI_HIGH = OffHook. -/
  pin_phone_hangout : Bool
  /-- Level last written to the hangout LED output pin. -/
  pin_hangout_led : Bool
  /-- Level last written to the dialer LED output pin. -/
  pin_dialer_led : Bool
  /-- Level last written to the dial-counter (dialing ready) LED pin. -/
  pin_dial_counter_led : Bool
  /-- Whether the hangout callback is registered. -/
  cb_hangout : Bool
  /-- Whether the dial-detect and pulse-count callbacks are registered
  (the source always registers and cancels the two together). -/
  cb_rotary : Bool
  /-- Net power level of the amplifier: each ampli_on_off call presses the
  power button once, toggling it. -/
  ampPowered : Bool
  /-- Trace of the track indices handed to the mp3 player, in order. -/
  played : List Nat
  /-- Whether the reboot command was issued. -/
  rebooted : Bool
  deriving Repr, DecidableEq

/-- max_numbers: capacity of the dialed-number buffer. -/
def max_numbers : Nat := 3

/-- Numeric value of the digit string, as computed by int(dialed_number). -/
def numValue (ds : List Nat) : Nat := ds.foldl (fun a d => a * 10 + d) 0

/-- Decimal digits of n, most significant first — the characters of the
Python string str(n), one list element per character.  Structural fuel
recursion (fuel n suffices because n / 10 < n for n ≥ 10). -/
def natDigitsAux : Nat → Nat → List Nat
  | 0, n => [n % 10]
  | fuel + 1, n => if n < 10 then [n] else natDigitsAux fuel (n / 10) ++ [n % 10]

/-- Decimal digits of n, most significant first, as produced by str(n). -/
def natDigits (n : Nat) : List Nat := natDigitsAux n n

/-- ampli_on_off: presses the power button (timed pulse, modelled as one
toggle of the physical power level), presses the mode button, and sets
ampli_status to False. -/
def ampli_on_off (s : PState) : PState :=
  { s with ampPowered := !s.ampPowered, ampli_status := false }

/-- release_callbacks: cancels all three callbacks and turns the
dial-counter LED off. -/
def release_callbacks (s : PState) : PState :=
  { s with cb_hangout := false, cb_rotary := false, pin_dial_counter_led := false }

/-- set_callbacks: registers all three callbacks and turns the
dial-counter LED on. -/
def set_callbacks (s : PState) : PState :=
  { s with cb_hangout := true, cb_rotary := true, pin_dial_counter_led := true }

/-- cb_set_rotary: registers the dial-detect and pulse-count callbacks and
turns the dial-counter LED on. -/
def cb_set_rotary (s : PState) : PState :=
  { s with cb_rotary := true, pin_dial_counter_led := true }

/-- cb_set_hangout: registers the hangout callback. -/
def cb_set_hangout (s : PState) : PState :=
  { s with cb_hangout := true }

/-- reinit: writes all three LEDs low and clears dialed_number.  The
source also contains the assignments track_position = 0 and
is_playing = True, but reinit declares neither name global, so in Python
those two assignments bind function locals and leave the module globals
unchanged; the embedding reproduces that actual behaviour. -/
def reinit (s : PState) : PState :=
  { s with pin_dial_counter_led := false, pin_hangout_led := false,
           pin_dialer_led := false, dialed_number := [] }

/-- play_track: brackets the amplifier, announces and plays the track at
track_position, then advances track_position, wrapping to 0 when it
reaches tracks. -/
def play_track (s : PState) : PState :=
  let s1 := ampli_on_off { s with is_playing := true }
  let s2 := { s1 with played := s1.played ++ [s1.track_position],
                      track_position := s1.track_position + 1 }
  let s3 := if s2.track_position = s2.tracks then { s2 with track_position := 0 } else s2
  if s3.is_playing then { (ampli_on_off s3) with is_playing := false } else s3

/-- While loop of play_all_tracks: plays the track at track_position,
increments it, and breaks when the line pin reads PI_LOW after a track.
lineRead i is the level the loop reads after playing track i; the fuel
bounds the iterations (tracks iterations always suffice). -/
def play_all_loop (lineRead : Nat → Bool) : Nat → PState → PState
  | 0, s => s
  | fuel + 1, s =>
    if s.track_position < s.tracks then
      let i := s.track_position
      let s1 := { s with played := s.played ++ [i], track_position := i + 1 }
      if lineRead i = false then s1
      else play_all_loop lineRead fuel s1
    else s

/-- play_all_tracks: brackets the amplifier, restarts track_position from
0, announces and plays every track in order, stopping early when the line
pin reads PI_LOW after a track. -/
def play_all_tracks (lineRead : Nat → Bool) (s : PState) : PState :=
  let s1 := ampli_on_off { s with is_playing := true }
  let s2 := { s1 with track_position := 0 }
  let s3 := play_all_loop lineRead s2.tracks s2
  if s3.is_playing then { (ampli_on_off s3) with is_playing := false } else s3

/-- list_all_tracks: brackets the amplifier and speaks every title through
the external TTS; the title loop uses a local counter and changes no
module state. -/
def list_all_tracks (s : PState) : PState :=
  let s1 := ampli_on_off { s with is_playing := true }
  if s1.is_playing then { (ampli_on_off s1) with is_playing := false } else s1

/-- say_help: brackets the amplifier and speaks the help strings through
the external TTS; the loop uses a local counter and changes no module
state. -/
def say_help (s : PState) : PState :=
  let s1 := ampli_on_off { s with is_playing := true }
  if s1.is_playing then { (ampli_on_off s1) with is_playing := false } else s1

/-- get_weather: brackets the amplifier, runs the external weather process
and speaks its output lines; no module state changes besides the bracket. -/
def get_weather (s : PState) : PState :=
  let s1 := ampli_on_off { s with is_playing := true }
  if s1.is_playing then { (ampli_on_off s1) with is_playing := false } else s1

/-- play_tts_sentence: brackets the amplifier around one spoken message. -/
def play_tts_sentence (s : PState) : PState :=
  let s1 := ampli_on_off { s with is_playing := true }
  if s1.is_playing then { (ampli_on_off s1) with is_playing := false } else s1

/-- Post-action pattern shared verbatim by the six dispatching branches of
check_number: release_callbacks, run the action, re-register the hangout
callback, and re-register the rotary callbacks when the hangout LED pin
reads PI_HIGH.  The line level may have changed to lineAfter while the
action was blocking; the check reads the LED output, not the line pin. -/
def dispatchAction (act : PState → PState) (lineAfter : Bool) (s : PState) : PState :=
  let s1 := release_callbacks s
  let s2 := act s1
  let s3 := { s2 with pin_phone_hangout := lineAfter }
  let s4 := cb_set_hangout s3
  if s4.pin_hangout_led then cb_set_rotary s4 else s4

/-- check_number: the command dispatcher, matching int(dialed_number)
against the command codes in source order.  Only the 666 branch clears
dialed_number; the 999 branch issues the reboot without releasing or
restoring callbacks, and appears twice in the source (the second test is
dead).  The commented-out wrong_command else branch is omitted as in the
source. -/
def check_number (lineRead : Nat → Bool) (lineAfter : Bool) (s : PState) : PState :=
  if s.dialed_number = [] then s
  else
    let v := numValue s.dialed_number
    if v = 666 then
      reinit { s with dialed_number := [] }
    else if v = 321 then
      dispatchAction play_track lineAfter s
    else if v = 123 then
      dispatchAction (play_all_tracks lineRead) lineAfter s
    else if v = 124 then
      dispatchAction list_all_tracks lineAfter s
    else if v ≤ s.tracks + 400 ∧ 400 < v then
      dispatchAction play_track lineAfter { s with track_position := v - 401 }
    else if v = 111 then
      dispatchAction say_help lineAfter s
    else if v = 999 then
      { s with rebooted := true }
    else if v = 100 then
      dispatchAction get_weather lineAfter s
    else if v = 999 then
      { s with rebooted := true }
    else s

/-- dial_detect: handler of the dial-in-progress pin edges.  detect is the
level read from the pin.  Active only while the line pin reads PI_HIGH: it
latches dialer_status, resets the pulse counter on the rising edge, clears
the buffer when it is at capacity, and otherwise decodes a completed digit
(raw count 20 stands for the cipher 0, every other raw count is halved),
appends the decimal string of the decoded value character by character —
one buffer element per character, so a malformed raw count of 21 or more
appends several elements — and invokes check_number synchronously. -/
def dial_detect (lineRead : Nat → Bool) (lineAfter : Bool) (detect : Bool)
    (s : PState) : PState :=
  if s.pin_phone_hangout then
    let s1 := { s with dialer_status := detect }
    let s2 := if detect then { s1 with pulses := 0, pin_dialer_led := true } else s1
    let s3 :=
      if max_numbers ≤ s2.dialed_number.length then
        { s2 with dialed_number := [] }
      else if s2.pulses ≠ 0 then
        let s4 := if s2.pulses = 20 then { s2 with pulses := 0 } else s2
        let s5 := { s4 with dialed_number := s4.dialed_number ++ natDigits (s4.pulses / 2) }
        check_number lineRead lineAfter s5
      else s2
    { s3 with pin_dialer_led := false }
  else s

/-- pulse_count: handler of the pulse pin edges; counts only while
dialer_status is high. -/
def pulse_count (s : PState) : PState :=
  if s.dialer_status then { s with pulses := s.pulses + 1 } else s

/-- hangout: handler of the line pin edges.  On OffHook it suspends all
callbacks, lights the hangout LED, speaks the activation message and
restores all callbacks; on OnHook it suspends all callbacks, speaks the
end message, clears the LED, reinitialises and restores only the hangout
callback. -/
def hangout (s : PState) : PState :=
  if s.pin_phone_hangout then
    let s1 := release_callbacks s
    let s2 := { s1 with pin_hangout_led := true }
    let s3 := play_tts_sentence s2
    set_callbacks s3
  else
    let s1 := release_callbacks s
    let s2 := play_tts_sentence s1
    let s3 := { s2 with pin_hangout_led := false }
    let s4 := reinit s3
    cb_set_hangout s4

/-- applyPulses: n edge events of the pulse pin in a row. -/
def applyPulses : Nat → PState → PState
  | 0, s => s
  | n + 1, s => applyPulses n (pulse_count s)

/-- dialDigit: one full digit rotation as seen by the handlers — the
rising dial-detect edge, rawPulses pulse edges, and the falling
dial-detect edge that decodes the digit and dispatches. -/
def dialDigit (lineRead : Nat → Bool) (lineAfter : Bool) (rawPulses : Nat)
    (s : PState) : PState :=
  dial_detect lineRead lineAfter false
    (applyPulses rawPulses (dial_detect lineRead lineAfter true s))

/-- Events delivered by the GPIO layer: a silent change of the line level,
a line edge (delivered to hangout only while its callback is registered),
a dial-detect edge and a pulse edge (delivered only while the rotary
callbacks are registered). -/
inductive Event where
  | lineChange (level : Bool)
  | hangoutEdge (level : Bool)
  | dialEdge (lineRead : Nat → Bool) (lineAfter : Bool) (detect : Bool)
  | pulseEdge

/-- step: delivery of one event, honouring the callback registrations. -/
def step (e : Event) (s : PState) : PState :=
  match e with
  | .lineChange l => { s with pin_phone_hangout := l }
  | .hangoutEdge l =>
      let s1 := { s with pin_phone_hangout := l }
      if s1.cb_hangout then hangout s1 else s1
  | .dialEdge lr la d => if s.cb_rotary then dial_detect lr la d s else s
  | .pulseEdge => if s.cb_rotary then pulse_count s else s

/-- run: delivery of a list of events in order. -/
def run (es : List Event) (s : PState) : PState := es.foldl (fun s e => step e s) s

/-- initState: the module state right after initGPIO (globals initialised,
configuration loaded, callbacks set, reinit executed), with the handset
on hook. -/
def initState (T : Nat) (fls tts : List String) : PState :=
  { dialed_number := [], pulses := 0, dialer_status := false, track_position := 0,
    is_playing := true, ampli_status := false, tracks := T, track_list := fls,
    track_titles := tts, pin_phone_hangout := false, pin_hangout_led := false,
    pin_dialer_led := false, pin_dial_counter_led := false, cb_hangout := true,
    cb_rotary := true, ampPowered := false, played := [], rebooted := false }

/-- offHookState: a state with the handset lifted (line pin and hangout
LED high, rotary callbacks registered), an empty buffer, play position p
and T configured tracks — the state in which dialing a command begins. -/
def offHookState (T p : Nat) (fls tts : List String) : PState :=
  { dialed_number := [], pulses := 0, dialer_status := false, track_position := p,
    is_playing := true, ampli_status := false, tracks := T, track_list := fls,
    track_titles := tts, pin_phone_hangout := true, pin_hangout_led := true,
    pin_dialer_led := false, pin_dial_counter_led := true, cb_hangout := true,
    cb_rotary := true, ampPowered := false, played := [], rebooted := false }

/-! Helper lemmas: frames of the blocking actions, characterisations of
one dial cycle, and branch equations of the dispatcher. -/

theorem play_track_frame (s : PState) :
    (play_track s).dialed_number = s.dialed_number ∧
    (play_track s).pin_hangout_led = s.pin_hangout_led ∧
    (play_track s).cb_rotary = s.cb_rotary ∧
    (play_track s).ampli_status = false := by
  simp only [play_track, ampli_on_off]
  split_ifs <;> simp

theorem list_all_tracks_frame (s : PState) :
    (list_all_tracks s).dialed_number = s.dialed_number ∧
    (list_all_tracks s).pin_hangout_led = s.pin_hangout_led ∧
    (list_all_tracks s).cb_rotary = s.cb_rotary ∧
    (list_all_tracks s).ampli_status = false := by
  simp only [list_all_tracks, ampli_on_off]
  split_ifs <;> simp

theorem say_help_frame (s : PState) :
    (say_help s).dialed_number = s.dialed_number ∧
    (say_help s).pin_hangout_led = s.pin_hangout_led ∧
    (say_help s).cb_rotary = s.cb_rotary ∧
    (say_help s).ampli_status = false := by
  simp only [say_help, ampli_on_off]
  split_ifs <;> simp

theorem get_weather_frame (s : PState) :
    (get_weather s).dialed_number = s.dialed_number ∧
    (get_weather s).pin_hangout_led = s.pin_hangout_led ∧
    (get_weather s).cb_rotary = s.cb_rotary ∧
    (get_weather s).ampli_status = false := by
  simp only [get_weather, ampli_on_off]
  split_ifs <;> simp

theorem play_tts_sentence_frame (s : PState) :
    (play_tts_sentence s).dialed_number = s.dialed_number ∧
    (play_tts_sentence s).cb_rotary = s.cb_rotary ∧
    (play_tts_sentence s).ampli_status = false := by
  simp only [play_tts_sentence, ampli_on_off]
  split_ifs <;> simp

theorem play_all_loop_frame (lineRead : Nat → Bool) (fuel : Nat) (s : PState) :
    (play_all_loop lineRead fuel s).dialed_number = s.dialed_number ∧
    (play_all_loop lineRead fuel s).pin_hangout_led = s.pin_hangout_led ∧
    (play_all_loop lineRead fuel s).cb_rotary = s.cb_rotary ∧
    (play_all_loop lineRead fuel s).is_playing = s.is_playing ∧
    (play_all_loop lineRead fuel s).ampli_status = s.ampli_status ∧
    (play_all_loop lineRead fuel s).ampPowered = s.ampPowered := by
  induction fuel generalizing s with
  | zero => simp [play_all_loop]
  | succ n ih =>
      simp only [play_all_loop]
      split_ifs <;> simp [ih]

theorem play_all_tracks_frame (lineRead : Nat → Bool) (s : PState) :
    (play_all_tracks lineRead s).dialed_number = s.dialed_number ∧
    (play_all_tracks lineRead s).pin_hangout_led = s.pin_hangout_led ∧
    (play_all_tracks lineRead s).cb_rotary = s.cb_rotary ∧
    (play_all_tracks lineRead s).ampli_status = false := by
  simp only [play_all_tracks, ampli_on_off]
  split_ifs with h <;>
    simp_all [play_all_loop_frame]

/-- C1 (counterexample): with three tracks, buffer holding the digits 3,2,
the handset off hook and the hangout LED high, dialing the digit 1
dispatches the next-track action; the line goes OnHook while the action
runs (lineAfter = false), yet the rotary dialing callbacks are re-enabled
afterwards, because the re-check reads the hangout LED output and not the
line pin.  This refutes the claim that dialing delivery is restored only
if the line is actually OffHook at a fresh re-check. -/
theorem C1_counterexample :
    ((dialDigit (fun _ => true) false 2
        { offHookState 3 0 ["a", "b", "c"] ["a", "b", "c"] with
            dialed_number := [3, 2] }).pin_phone_hangout = false) ∧
    ((dialDigit (fun _ => true) false 2
        { offHookState 3 0 ["a", "b", "c"] ["a", "b", "c"] with
            dialed_number := [3, 2] }).cb_rotary = true) := by decide

/-- C2 (counterexample): with three tracks, dialing 1, then 2, then 4 from
an empty buffer dispatches the list-titles action, but the buffer ends
holding the digits 1,2,4, not empty: the dispatcher never clears the
buffer after the list-titles action. -/
theorem C2_counterexample :
    ((dialDigit (fun _ => true) true 8
        (dialDigit (fun _ => true) true 4
          (dialDigit (fun _ => true) true 2
            (offHookState 3 0 ["a", "b", "c"] ["a", "b", "c"])))).dialed_number
        = [1, 2, 4]) ∧
    ¬ ((dialDigit (fun _ => true) true 8
        (dialDigit (fun _ => true) true 4
          (dialDigit (fun _ => true) true 2
            (offHookState 3 0 ["a", "b", "c"] ["a", "b", "c"])))).dialed_number
        = []) := by decide

/-- C3 (code evaluation at the failing input): with three tracks and play
position 2, dialing 6, then 6, then 6 matches the reset code: the buffer
is cleared, but the play position stays 2 instead of returning to 0 —
reinit assigns track_position without a global declaration, so the
assignment binds a function local and the module global keeps its value. -/
theorem C3_code_behaviour :
    ((dialDigit (fun _ => true) true 12
        (dialDigit (fun _ => true) true 12
          (dialDigit (fun _ => true) true 12
            (offHookState 3 2 ["a", "b", "c"] ["a", "b", "c"])))).dialed_number
        = []) ∧
    ((dialDigit (fun _ => true) true 12
        (dialDigit (fun _ => true) true 12
          (dialDigit (fun _ => true) true 12
            (offHookState 3 2 ["a", "b", "c"] ["a", "b", "c"])))).track_position
        = 2) := by decide

/-- C6 (counterexample): with six tracks and play position 0, dialing 4,
then 0, then 5 plays the single track at index 4 as claimed, but the
sequential play position does not keep its prior value 0: the track-select
branch overwrites it and play_track then advances it, leaving it at 5. -/
theorem C6_counterexample :
    ((dialDigit (fun _ => true) true 10
        (dialDigit (fun _ => true) true 20
          (dialDigit (fun _ => true) true 8
            (offHookState 6 0 ["a", "b", "c", "d", "e", "f"]
              ["a", "b", "c", "d", "e", "f"])))).played = [4]) ∧
    ¬ ((dialDigit (fun _ => true) true 10
        (dialDigit (fun _ => true) true 20
          (dialDigit (fun _ => true) true 8
            (offHookState 6 0 ["a", "b", "c", "d", "e", "f"]
              ["a", "b", "c", "d", "e", "f"])))).track_position = 0) := by decide

theorem dispatchAction_frame (act : PState → PState)
    (hd : ∀ t, (act t).dialed_number = t.dialed_number)
    (hl : ∀ t, (act t).pin_hangout_led = t.pin_hangout_led)
    (hr : ∀ t, (act t).cb_rotary = t.cb_rotary)
    (la : Bool) (s : PState) :
    (dispatchAction act la s).dialed_number = s.dialed_number ∧
    (dispatchAction act la s).cb_hangout = true ∧
    (dispatchAction act la s).cb_rotary = s.pin_hangout_led ∧
    (dispatchAction act la s).pin_phone_hangout = la := by
  simp only [dispatchAction, release_callbacks, cb_set_hangout, cb_set_rotary]
  split_ifs with h <;> simp_all [hd, hl, hr]

theorem dispatch_play_track_obs (la : Bool) (s : PState) :
    (dispatchAction play_track la s).played = s.played ++ [s.track_position] ∧
    (dispatchAction play_track la s).track_position =
      (if s.track_position + 1 = s.tracks then 0 else s.track_position + 1) := by
  simp only [dispatchAction, release_callbacks, cb_set_hangout, cb_set_rotary,
    play_track, ampli_on_off]
  split_ifs <;> simp_all

theorem applyPulses_eq (n : Nat) (s : PState) (h : s.dialer_status = true) :
    applyPulses n s = { s with pulses := s.pulses + n } := by
  induction n generalizing s with
  | zero => simp [applyPulses]
  | succ m ih =>
      have h2 : (pulse_count s).dialer_status = true := by simp [pulse_count, h]
      rw [applyPulses, ih _ h2]
      simp [pulse_count, h, PState.mk.injEq]
      omega

theorem natDigits_digit (n : Nat) (h : n ≤ 9) : natDigits n = [n] := by
  match n with
  | 0 => rfl
  | m + 1 =>
      simp only [natDigits, natDigitsAux]
      rw [if_pos (by omega)]

theorem natDigits_len_one (n : Nat) (h : n ≤ 9) : (natDigits n).length = 1 := by
  rw [natDigits_digit n h]
  rfl

theorem dial_start_eq (lr : Nat → Bool) (la : Bool) (s : PState)
    (hph : s.pin_phone_hangout = true) (hlen : s.dialed_number.length < 3) :
    dial_detect lr la true s =
      { s with dialer_status := true, pulses := 0, pin_dialer_led := false } := by
  have h1 : ¬ (max_numbers ≤ s.dialed_number.length) := by
    simp only [max_numbers]; omega
  simp [dial_detect, hph, h1]

theorem dial_start_full_eq (lr : Nat → Bool) (la : Bool) (s : PState)
    (hph : s.pin_phone_hangout = true) (hlen : 3 ≤ s.dialed_number.length) :
    dial_detect lr la true s =
      { s with dialer_status := true, pulses := 0, pin_dialer_led := false,
               dialed_number := [] } := by
  have h1 : max_numbers ≤ s.dialed_number.length := by
    simp only [max_numbers]; omega
  simp [dial_detect, hph, h1]

theorem dial_end_eq (lr : Nat → Bool) (la : Bool) (s : PState)
    (hph : s.pin_phone_hangout = true) (hlen : s.dialed_number.length < 3)
    (hp0 : s.pulses ≠ 0) (hp20 : s.pulses ≠ 20) :
    dial_detect lr la false s =
      { check_number lr la
          { s with dialer_status := false,
                   dialed_number := s.dialed_number ++ natDigits (s.pulses / 2) }
        with pin_dialer_led := false } := by
  have h1 : ¬ (max_numbers ≤ s.dialed_number.length) := by
    simp only [max_numbers]; omega
  simp [dial_detect, hph, h1, hp0, hp20]

theorem dial_end_zero_eq (lr : Nat → Bool) (la : Bool) (s : PState)
    (hph : s.pin_phone_hangout = true) (hlen : s.dialed_number.length < 3)
    (hp20 : s.pulses = 20) :
    dial_detect lr la false s =
      { check_number lr la
          { s with dialer_status := false, pulses := 0,
                   dialed_number := s.dialed_number ++ [0] }
        with pin_dialer_led := false } := by
  have h1 : ¬ (max_numbers ≤ s.dialed_number.length) := by
    simp only [max_numbers]; omega
  simp [dial_detect, hph, h1, hp20, natDigits, natDigitsAux]

theorem dial_end_nopulse_eq (lr : Nat → Bool) (la : Bool) (s : PState)
    (hph : s.pin_phone_hangout = true) (hlen : s.dialed_number.length < 3)
    (hp0 : s.pulses = 0) :
    dial_detect lr la false s =
      { s with dialer_status := false, pin_dialer_led := false } := by
  have h1 : ¬ (max_numbers ≤ s.dialed_number.length) := by
    simp only [max_numbers]; omega
  simp [dial_detect, hph, h1, hp0]

theorem check_number_small (lr : Nat → Bool) (la : Bool) (s : PState)
    (h : numValue s.dialed_number ≤ 99) :
    check_number lr la s = s := by
  simp only [check_number]
  split_ifs <;> first | rfl | omega

theorem check_number_666 (lr : Nat → Bool) (la : Bool) (s : PState)
    (hne : s.dialed_number ≠ []) (h : numValue s.dialed_number = 666) :
    check_number lr la s = reinit { s with dialed_number := [] } := by
  simp [check_number, hne, h]

theorem check_number_321 (lr : Nat → Bool) (la : Bool) (s : PState)
    (hne : s.dialed_number ≠ []) (h : numValue s.dialed_number = 321) :
    check_number lr la s = dispatchAction play_track la s := by
  simp [check_number, hne, h]

theorem check_number_123 (lr : Nat → Bool) (la : Bool) (s : PState)
    (hne : s.dialed_number ≠ []) (h : numValue s.dialed_number = 123) :
    check_number lr la s = dispatchAction (play_all_tracks lr) la s := by
  simp [check_number, hne, h]

theorem check_number_124 (lr : Nat → Bool) (la : Bool) (s : PState)
    (hne : s.dialed_number ≠ []) (h : numValue s.dialed_number = 124) :
    check_number lr la s = dispatchAction list_all_tracks la s := by
  simp [check_number, hne, h]

theorem check_number_111 (lr : Nat → Bool) (la : Bool) (s : PState)
    (hne : s.dialed_number ≠ []) (h : numValue s.dialed_number = 111) :
    check_number lr la s = dispatchAction say_help la s := by
  simp [check_number, hne, h]

theorem check_number_100 (lr : Nat → Bool) (la : Bool) (s : PState)
    (hne : s.dialed_number ≠ []) (h : numValue s.dialed_number = 100) :
    check_number lr la s = dispatchAction get_weather la s := by
  simp [check_number, hne, h]

theorem check_number_track (lr : Nat → Bool) (la : Bool) (s : PState)
    (hne : s.dialed_number ≠ [])
    (h666 : numValue s.dialed_number ≠ 666)
    (hlo : 400 < numValue s.dialed_number)
    (hhi : numValue s.dialed_number ≤ s.tracks + 400) :
    check_number lr la s =
      dispatchAction play_track la
        { s with track_position := numValue s.dialed_number - 401 } := by
  have h321 : numValue s.dialed_number ≠ 321 := by omega
  have h123 : numValue s.dialed_number ≠ 123 := by omega
  have h124 : numValue s.dialed_number ≠ 124 := by omega
  simp [check_number, hne, h666, h321, h123, h124, hlo, hhi]

/-- C1 (amended): after every dispatched action (codes 321, 123, 124,
track-select, 111 and 100), the line-monitor callback is always restored,
and the rotary dialing callbacks are restored if and only if the hangout
LED output pin reads HIGH at the post-action check.  Because the
line-monitor callback is cancelled for the whole action, that LED still
holds the value written at the last line event processed before the
action, not a fresh read of the line, so dialing delivery can also be
re-enabled when the line went OnHook during the action. -/
theorem C1_amended (lr : Nat → Bool) (la : Bool) (s : PState)
    (hne : s.dialed_number ≠ [])
    (hv : numValue s.dialed_number = 321 ∨ numValue s.dialed_number = 123 ∨
          numValue s.dialed_number = 124 ∨ numValue s.dialed_number = 111 ∨
          numValue s.dialed_number = 100 ∨
          (numValue s.dialed_number ≠ 666 ∧ 400 < numValue s.dialed_number ∧
           numValue s.dialed_number ≤ s.tracks + 400)) :
    (check_number lr la s).cb_hangout = true ∧
    (check_number lr la s).cb_rotary = s.pin_hangout_led := by
  rcases hv with h | h | h | h | h | ⟨h1, h2, h3⟩
  · rw [check_number_321 lr la s hne h]
    have hf := dispatchAction_frame play_track (fun t => (play_track_frame t).1)
      (fun t => (play_track_frame t).2.1) (fun t => (play_track_frame t).2.2.1) la s
    exact ⟨hf.2.1, hf.2.2.1⟩
  · rw [check_number_123 lr la s hne h]
    have hf := dispatchAction_frame (play_all_tracks lr)
      (fun t => (play_all_tracks_frame lr t).1) (fun t => (play_all_tracks_frame lr t).2.1)
      (fun t => (play_all_tracks_frame lr t).2.2.1) la s
    exact ⟨hf.2.1, hf.2.2.1⟩
  · rw [check_number_124 lr la s hne h]
    have hf := dispatchAction_frame list_all_tracks (fun t => (list_all_tracks_frame t).1)
      (fun t => (list_all_tracks_frame t).2.1) (fun t => (list_all_tracks_frame t).2.2.1) la s
    exact ⟨hf.2.1, hf.2.2.1⟩
  · rw [check_number_111 lr la s hne h]
    have hf := dispatchAction_frame say_help (fun t => (say_help_frame t).1)
      (fun t => (say_help_frame t).2.1) (fun t => (say_help_frame t).2.2.1) la s
    exact ⟨hf.2.1, hf.2.2.1⟩
  · rw [check_number_100 lr la s hne h]
    have hf := dispatchAction_frame get_weather (fun t => (get_weather_frame t).1)
      (fun t => (get_weather_frame t).2.1) (fun t => (get_weather_frame t).2.2.1) la s
    exact ⟨hf.2.1, hf.2.2.1⟩
  · rw [check_number_track lr la s hne h1 h2 h3]
    have hf := dispatchAction_frame play_track (fun t => (play_track_frame t).1)
      (fun t => (play_track_frame t).2.1) (fun t => (play_track_frame t).2.2.1) la
      { s with track_position := numValue s.dialed_number - 401 }
    exact ⟨hf.2.1, hf.2.2.1⟩

/-- C1 (witness): the amended statement at a concrete instance — dialing
next-track with three tracks while the line drops during the action. -/
theorem C1_amended_witness :
    (check_number (fun _ => true) false
        { offHookState 3 0 ["a", "b", "c"] ["a", "b", "c"] with
            dialed_number := [3, 2, 1] }).cb_hangout = true ∧
    (check_number (fun _ => true) false
        { offHookState 3 0 ["a", "b", "c"] ["a", "b", "c"] with
            dialed_number := [3, 2, 1] }).cb_rotary =
      ({ offHookState 3 0 ["a", "b", "c"] ["a", "b", "c"] with
            dialed_number := [3, 2, 1] } : PState).pin_hangout_led :=
  C1_amended (fun _ => true) false
    { offHookState 3 0 ["a", "b", "c"] ["a", "b", "c"] with
        dialed_number := [3, 2, 1] }
    (by decide) (Or.inl (by decide))

/-- C2 (amended): the dispatcher clears the buffer only for the reset code
666; after every other terminal action (codes 321, 123, 124, track-select,
111, 100) the buffer is left unchanged, still holding the matched code —
in particular after dialing 1, 2, 4 the buffer holds those digits — and
the code is only discarded when a later dial event finds the buffer at
capacity. -/
theorem C2_amended (lr : Nat → Bool) (la : Bool) (s : PState)
    (hne : s.dialed_number ≠ [])
    (hv : numValue s.dialed_number = 321 ∨ numValue s.dialed_number = 123 ∨
          numValue s.dialed_number = 124 ∨ numValue s.dialed_number = 111 ∨
          numValue s.dialed_number = 100 ∨
          (numValue s.dialed_number ≠ 666 ∧ 400 < numValue s.dialed_number ∧
           numValue s.dialed_number ≤ s.tracks + 400)) :
    (check_number lr la s).dialed_number = s.dialed_number := by
  rcases hv with h | h | h | h | h | ⟨h1, h2, h3⟩
  · rw [check_number_321 lr la s hne h]
    exact (dispatchAction_frame play_track (fun t => (play_track_frame t).1)
      (fun t => (play_track_frame t).2.1) (fun t => (play_track_frame t).2.2.1) la s).1
  · rw [check_number_123 lr la s hne h]
    exact (dispatchAction_frame (play_all_tracks lr)
      (fun t => (play_all_tracks_frame lr t).1) (fun t => (play_all_tracks_frame lr t).2.1)
      (fun t => (play_all_tracks_frame lr t).2.2.1) la s).1
  · rw [check_number_124 lr la s hne h]
    exact (dispatchAction_frame list_all_tracks (fun t => (list_all_tracks_frame t).1)
      (fun t => (list_all_tracks_frame t).2.1)
      (fun t => (list_all_tracks_frame t).2.2.1) la s).1
  · rw [check_number_111 lr la s hne h]
    exact (dispatchAction_frame say_help (fun t => (say_help_frame t).1)
      (fun t => (say_help_frame t).2.1) (fun t => (say_help_frame t).2.2.1) la s).1
  · rw [check_number_100 lr la s hne h]
    exact (dispatchAction_frame get_weather (fun t => (get_weather_frame t).1)
      (fun t => (get_weather_frame t).2.1) (fun t => (get_weather_frame t).2.2.1) la s).1
  · rw [check_number_track lr la s hne h1 h2 h3]
    exact (dispatchAction_frame play_track (fun t => (play_track_frame t).1)
      (fun t => (play_track_frame t).2.1) (fun t => (play_track_frame t).2.2.1) la
      { s with track_position := numValue s.dialed_number - 401 }).1

/-- C2 (witness): the amended statement at a concrete instance — after the
list-titles action the buffer still holds the digits 1, 2, 4. -/
theorem C2_amended_witness :
    (check_number (fun _ => true) true
        { offHookState 3 0 ["a", "b", "c"] ["a", "b", "c"] with
            dialed_number := [1, 2, 4] }).dialed_number =
      ({ offHookState 3 0 ["a", "b", "c"] ["a", "b", "c"] with
            dialed_number := [1, 2, 4] } : PState).dialed_number :=
  C2_amended (fun _ => true) true
    { offHookState 3 0 ["a", "b", "c"] ["a", "b", "c"] with
        dialed_number := [1, 2, 4] }
    (by decide) (Or.inr (Or.inr (Or.inl (by decide))))

theorem dialDigit_dispatch (lr : Nat → Bool) (la : Bool) (n : Nat) (s : PState)
    (hph : s.pin_phone_hangout = true) (hlen : s.dialed_number.length < 3)
    (hn0 : n ≠ 0) (hn20 : n ≠ 20) :
    dialDigit lr la n s =
      { check_number lr la
          { s with dialer_status := false, pulses := n, pin_dialer_led := false,
                   dialed_number := s.dialed_number ++ natDigits (n / 2) }
        with pin_dialer_led := false } := by
  unfold dialDigit
  rw [dial_start_eq lr la s hph hlen]
  rw [applyPulses_eq n _ rfl]
  rw [dial_end_eq lr la _ (by simpa using hph) (by simpa using hlen)
    (by simp [hn0]) (by simp [hn20])]
  simp

theorem dialDigit_nomatch (lr : Nat → Bool) (la : Bool) (n : Nat) (s : PState)
    (hph : s.pin_phone_hangout = true) (hlen : s.dialed_number.length < 3)
    (hn0 : n ≠ 0) (hn20 : n ≠ 20)
    (hsmall : numValue (s.dialed_number ++ natDigits (n / 2)) ≤ 99) :
    dialDigit lr la n s =
      { s with dialer_status := false, pulses := n, pin_dialer_led := false,
               dialed_number := s.dialed_number ++ natDigits (n / 2) } := by
  rw [dialDigit_dispatch lr la n s hph hlen hn0 hn20]
  rw [check_number_small lr la
    { s with dialer_status := false, pulses := n, pin_dialer_led := false,
             dialed_number := s.dialed_number ++ natDigits (n / 2) } (by simpa using hsmall)]

theorem dialDigit_zero_dispatch (lr : Nat → Bool) (la : Bool) (s : PState)
    (hph : s.pin_phone_hangout = true) (hlen : s.dialed_number.length < 3) :
    dialDigit lr la 20 s =
      { check_number lr la
          { s with dialer_status := false, pulses := 0, pin_dialer_led := false,
                   dialed_number := s.dialed_number ++ [0] }
        with pin_dialer_led := false } := by
  unfold dialDigit
  rw [dial_start_eq lr la s hph hlen]
  rw [applyPulses_eq 20 _ rfl]
  rw [dial_end_zero_eq lr la _ (by simpa using hph) (by simpa using hlen) (by simp)]

theorem dialDigit_zero_nomatch (lr : Nat → Bool) (la : Bool) (s : PState)
    (hph : s.pin_phone_hangout = true) (hlen : s.dialed_number.length < 3)
    (hsmall : numValue (s.dialed_number ++ [0]) ≤ 99) :
    dialDigit lr la 20 s =
      { s with dialer_status := false, pulses := 0, pin_dialer_led := false,
               dialed_number := s.dialed_number ++ [0] } := by
  rw [dialDigit_zero_dispatch lr la s hph hlen]
  rw [check_number_small lr la
    { s with dialer_status := false, pulses := 0, pin_dialer_led := false,
             dialed_number := s.dialed_number ++ [0] } (by simpa using hsmall)]

/-- Observations of dialing the digits 3, 2, 1 from an off-hook state with
an empty buffer: the track at the current play position is played, and the
play position advances by one, wrapping to 0 at the track count. -/
theorem dial321_obs (lr : Nat → Bool) (la : Bool) (s : PState)
    (hph : s.pin_phone_hangout = true) (hempty : s.dialed_number = [])
    (hpl : s.played = []) :
    ((dialDigit lr la 2 (dialDigit lr la 4 (dialDigit lr la 6 s))).played
        = [s.track_position]) ∧
    ((dialDigit lr la 2 (dialDigit lr la 4 (dialDigit lr la 6 s))).track_position
        = if s.track_position + 1 = s.tracks then 0 else s.track_position + 1) := by
  rw [dialDigit_nomatch lr la 6 s hph (by simp [hempty]) (by omega) (by omega)
    (by simp only [hempty, List.nil_append] <;> decide)]
  set S1 : PState :=
    { s with dialer_status := false, pulses := 6, pin_dialer_led := false,
             dialed_number := s.dialed_number ++ natDigits (6 / 2) } with hS1
  rw [dialDigit_nomatch lr la 4 S1 (by simp [hS1, hph])
    (by simp only [hS1, hempty, List.nil_append] <;> decide)
    (by omega) (by omega)
    (by simp only [hS1, hempty, List.nil_append] <;> decide)]
  set S2 : PState :=
    { S1 with dialer_status := false, pulses := 4, pin_dialer_led := false,
              dialed_number := S1.dialed_number ++ natDigits (4 / 2) } with hS2
  rw [dialDigit_dispatch lr la 2 S2 (by simp [hS2, hS1, hph])
    (by simp only [hS2, hS1, hempty, List.nil_append] <;> decide)
    (by omega) (by omega)]
  set S3 : PState :=
    { S2 with dialer_status := false, pulses := 2, pin_dialer_led := false,
              dialed_number := S2.dialed_number ++ natDigits (2 / 2) } with hS3
  rw [check_number_321 lr la S3
    (by simp only [hS3, hS2, hS1, hempty, List.nil_append] <;> decide)
    (by simp only [hS3, hS2, hS1, hempty, List.nil_append] <;> decide)]
  have ho := dispatch_play_track_obs la S3
  refine ⟨?_, ?_⟩
  · simp only [ho.1]
    simp [hS3, hS2, hS1, hpl]
  · simp only [ho.2]

/-- C8: with N configured tracks and current play position p < N, dialing
the digits 3, 2, 1 (the next-track code 321) from an off-hook state with
an empty buffer plays the track at position p and advances the play
position to (p + 1) mod N. -/
theorem C8 (lr : Nat → Bool) (la : Bool) (N p : Nat) (fls tts : List String)
    (_hN : 1 ≤ N) (hp : p < N) :
    ((dialDigit lr la 2 (dialDigit lr la 4 (dialDigit lr la 6
        (offHookState N p fls tts)))).played = [p]) ∧
    ((dialDigit lr la 2 (dialDigit lr la 4 (dialDigit lr la 6
        (offHookState N p fls tts)))).track_position = (p + 1) % N) := by
  have h := dial321_obs lr la (offHookState N p fls tts) rfl rfl rfl
  refine ⟨by simpa [offHookState] using h.1, ?_⟩
  rw [h.2]
  simp only [offHookState]
  split_ifs with hEq
  · rw [hEq, Nat.mod_self]
  · rw [Nat.mod_eq_of_lt (by omega)]

/-- C8 (witness): the statement at three tracks and play position 2 — the
track at position 2 is played and the position wraps to 0. -/
theorem C8_witness :
    ((dialDigit (fun _ => true) true 2 (dialDigit (fun _ => true) true 4
        (dialDigit (fun _ => true) true 6
          (offHookState 3 2 ["a", "b", "c"] ["a", "b", "c"])))).played = [2]) ∧
    ((dialDigit (fun _ => true) true 2 (dialDigit (fun _ => true) true 4
        (dialDigit (fun _ => true) true 6
          (offHookState 3 2 ["a", "b", "c"] ["a", "b", "c"])))).track_position
        = (2 + 1) % 3) :=
  C8 (fun _ => true) true 3 2 ["a", "b", "c"] ["a", "b", "c"]
    (by decide) (by decide)

/-- C5: pulse decoding of a single digit from an empty buffer — a raw
count of 20 decodes to the digit 0, an even raw count 2k with 1 ≤ k ≤ 9
decodes to the digit k, and a release with a zero raw count appends
nothing. -/
theorem C5 (lr : Nat → Bool) (la : Bool) (s : PState)
    (hph : s.pin_phone_hangout = true) (hempty : s.dialed_number = []) :
    (s.pulses = 20 → (dial_detect lr la false s).dialed_number = [0]) ∧
    (∀ k, 1 ≤ k → k ≤ 9 → s.pulses = 2 * k →
      (dial_detect lr la false s).dialed_number = [k]) ∧
    (s.pulses = 0 → (dial_detect lr la false s).dialed_number = []) := by
  have hlen : s.dialed_number.length < 3 := by simp [hempty]
  refine ⟨?_, ?_, ?_⟩
  · intro h20
    rw [dial_end_zero_eq lr la s hph hlen h20]
    rw [check_number_small lr la
      { s with dialer_status := false, pulses := 0,
               dialed_number := s.dialed_number ++ [0] }
      (by simp [hempty, numValue])]
    simp [hempty]
  · intro k hk1 hk9 hp
    have hp0 : s.pulses ≠ 0 := by omega
    have hp20 : s.pulses ≠ 20 := by omega
    rw [dial_end_eq lr la s hph hlen hp0 hp20]
    have hdiv : s.pulses / 2 = k := by omega
    rw [hdiv, natDigits_digit k (by omega)]
    rw [check_number_small lr la
      { s with dialer_status := false,
               dialed_number := s.dialed_number ++ [k] }
      (by simp [hempty, numValue]; omega)]
    simp [hempty]
  · intro h0
    rw [dial_end_nopulse_eq lr la s hph hlen h0]
    simp [hempty]

/-- C5 (witness): a raw count of 6 pulses decodes to the digit 3. -/
theorem C5_witness :
    (dial_detect (fun _ => true) true false
        { offHookState 3 0 ["a", "b", "c"] ["a", "b", "c"] with
            pulses := 6 }).dialed_number = [3] :=
  (C5 (fun _ => true) true
      { offHookState 3 0 ["a", "b", "c"] ["a", "b", "c"] with pulses := 6 }
      (by decide) (by decide)).2.1 3 (by decide) (by decide) (by decide)

/-- C10: when the file-name and title lists both have length equal to the
configured track count, every track-select code accepted by the dispatcher
(400 < value ≤ 400 + track count, not shadowed by the reset code) sets the
play position to value − 401, which is a valid index into both lists, and
play_track plays exactly that index. -/
theorem C10 (lr : Nat → Bool) (la : Bool) (s : PState)
    (hfl : s.track_list.length = s.tracks) (htl : s.track_titles.length = s.tracks)
    (hne : s.dialed_number ≠ [])
    (h666 : numValue s.dialed_number ≠ 666)
    (hlo : 400 < numValue s.dialed_number)
    (hhi : numValue s.dialed_number ≤ 400 + s.tracks) :
    numValue s.dialed_number - 401 < s.track_list.length ∧
    numValue s.dialed_number - 401 < s.track_titles.length ∧
    (check_number lr la s).played =
      s.played ++ [numValue s.dialed_number - 401] := by
  refine ⟨by omega, by omega, ?_⟩
  rw [check_number_track lr la s hne h666 hlo (by omega)]
  have ho := dispatch_play_track_obs la
    ({ s with track_position := numValue s.dialed_number - 401 } : PState)
  simp only [ho.1]

/-- C10 (witness): the statement at a concrete state with six tracks and
the dialed code 405. -/
theorem C10_witness :
    numValue [4, 0, 5] - 401 <
      (({ offHookState 6 0 ["a", "b", "c", "d", "e", "f"]
            ["t", "u", "v", "w", "x", "y"] with
          dialed_number := [4, 0, 5] } : PState)).track_list.length ∧
    numValue [4, 0, 5] - 401 <
      (({ offHookState 6 0 ["a", "b", "c", "d", "e", "f"]
            ["t", "u", "v", "w", "x", "y"] with
          dialed_number := [4, 0, 5] } : PState)).track_titles.length ∧
    (check_number (fun _ => true) true
        { offHookState 6 0 ["a", "b", "c", "d", "e", "f"]
            ["t", "u", "v", "w", "x", "y"] with
          dialed_number := [4, 0, 5] }).played =
      ({ offHookState 6 0 ["a", "b", "c", "d", "e", "f"]
            ["t", "u", "v", "w", "x", "y"] with
          dialed_number := [4, 0, 5] } : PState).played ++ [numValue [4, 0, 5] - 401] :=
  C10 (fun _ => true) true
    { offHookState 6 0 ["a", "b", "c", "d", "e", "f"]
        ["t", "u", "v", "w", "x", "y"] with dialed_number := [4, 0, 5] }
    (by decide) (by decide) (by decide) (by decide) (by decide) (by decide)

/-- Observations of dialing the digits 4, 0, 5 from an off-hook state with
an empty buffer and at least five tracks: the track at index 4 is played,
and the play position is left at 5, wrapping to 0 when the track count is
exactly 5. -/
theorem dial405_obs (lr : Nat → Bool) (la : Bool) (s : PState)
    (hph : s.pin_phone_hangout = true) (hempty : s.dialed_number = [])
    (hpl : s.played = []) (hT : 5 ≤ s.tracks) :
    ((dialDigit lr la 10 (dialDigit lr la 20 (dialDigit lr la 8 s))).played = [4]) ∧
    ((dialDigit lr la 10 (dialDigit lr la 20 (dialDigit lr la 8 s))).track_position
        = if 4 + 1 = s.tracks then 0 else 4 + 1) := by
  rw [dialDigit_nomatch lr la 8 s hph (by simp [hempty]) (by omega) (by omega)
    (by simp only [hempty, List.nil_append] <;> decide)]
  set S1 : PState :=
    { s with dialer_status := false, pulses := 8, pin_dialer_led := false,
             dialed_number := s.dialed_number ++ natDigits (8 / 2) } with hS1
  rw [dialDigit_zero_nomatch lr la S1 (by simp [hS1, hph])
    (by simp only [hS1, hempty, List.nil_append] <;> decide)
    (by simp only [hS1, hempty, List.nil_append] <;> decide)]
  set S2 : PState :=
    { S1 with dialer_status := false, pulses := 0, pin_dialer_led := false,
              dialed_number := S1.dialed_number ++ [0] } with hS2
  rw [dialDigit_dispatch lr la 10 S2 (by simp [hS2, hS1, hph])
    (by simp only [hS2, hS1, hempty, List.nil_append] <;> decide)
    (by omega) (by omega)]
  set S3 : PState :=
    { S2 with dialer_status := false, pulses := 10, pin_dialer_led := false,
              dialed_number := S2.dialed_number ++ natDigits (10 / 2) } with hS3
  have hval : numValue S3.dialed_number = 405 := by
    simp only [hS3, hS2, hS1, hempty, List.nil_append] <;> decide
  rw [check_number_track lr la S3
    (by simp only [hS3, hS2, hS1, hempty, List.nil_append] <;> decide)
    (by rw [hval]; decide) (by rw [hval]; decide)
    (by rw [hval]; simp only [hS3, hS2, hS1]; omega)]
  have ho := dispatch_play_track_obs la
    ({ S3 with track_position := numValue S3.dialed_number - 401 } : PState)
  refine ⟨?_, ?_⟩
  · simp only [ho.1]
    simp only [hval]
    simp [hS3, hS2, hS1, hpl]
  · simp only [ho.2]
    simp only [hval]

/-- C6 (amended): dialing 4, 0, 5 with at least five configured tracks
plays the single track at zero-based index 4, but the sequential play
position does not keep its prior value: the command overwrites it and
play_track advances it, leaving it at 5 mod track-count, whatever it was
before. -/
theorem C6_amended (lr : Nat → Bool) (la : Bool) (T p : Nat)
    (fls tts : List String) (hT : 5 ≤ T) :
    ((dialDigit lr la 10 (dialDigit lr la 20 (dialDigit lr la 8
        (offHookState T p fls tts)))).played = [4]) ∧
    ((dialDigit lr la 10 (dialDigit lr la 20 (dialDigit lr la 8
        (offHookState T p fls tts)))).track_position = 5 % T) := by
  have h := dial405_obs lr la (offHookState T p fls tts) rfl rfl rfl
    (by simpa [offHookState] using hT)
  refine ⟨h.1, ?_⟩
  rw [h.2]
  simp only [offHookState]
  split_ifs with hEq
  · rw [← hEq]
  · rw [Nat.mod_eq_of_lt (by omega)]

/-- C6 (amended, witness): with exactly five tracks and prior position 3,
dialing 4, 0, 5 plays index 4 and leaves the position at 5 mod 5 = 0. -/
theorem C6_amended_witness :
    ((dialDigit (fun _ => true) true 10 (dialDigit (fun _ => true) true 20
        (dialDigit (fun _ => true) true 8
          (offHookState 5 3 ["a", "b", "c", "d", "e"]
            ["a", "b", "c", "d", "e"])))).played = [4]) ∧
    ((dialDigit (fun _ => true) true 10 (dialDigit (fun _ => true) true 20
        (dialDigit (fun _ => true) true 8
          (offHookState 5 3 ["a", "b", "c", "d", "e"]
            ["a", "b", "c", "d", "e"])))).track_position = 5 % 5) :=
  C6_amended (fun _ => true) true 5 3 ["a", "b", "c", "d", "e"]
    ["a", "b", "c", "d", "e"] (by decide)

/-- check_number either leaves the buffer unchanged (non-matching codes,
reboot, and all six dispatching branches) or clears it (the 666 branch). -/
theorem check_number_dialed (lr : Nat → Bool) (la : Bool) (s : PState) :
    (check_number lr la s).dialed_number = s.dialed_number ∨
    (check_number lr la s).dialed_number = [] := by
  simp only [check_number]
  split_ifs
  · left; rfl
  · right; rfl
  · left
    exact (dispatchAction_frame play_track (fun t => (play_track_frame t).1)
      (fun t => (play_track_frame t).2.1) (fun t => (play_track_frame t).2.2.1) la s).1
  · left
    exact (dispatchAction_frame (play_all_tracks lr)
      (fun t => (play_all_tracks_frame lr t).1) (fun t => (play_all_tracks_frame lr t).2.1)
      (fun t => (play_all_tracks_frame lr t).2.2.1) la s).1
  · left
    exact (dispatchAction_frame list_all_tracks (fun t => (list_all_tracks_frame t).1)
      (fun t => (list_all_tracks_frame t).2.1)
      (fun t => (list_all_tracks_frame t).2.2.1) la s).1
  · left
    exact (dispatchAction_frame play_track (fun t => (play_track_frame t).1)
      (fun t => (play_track_frame t).2.1) (fun t => (play_track_frame t).2.2.1) la
      { s with track_position := numValue s.dialed_number - 401 }).1
  · left
    exact (dispatchAction_frame say_help (fun t => (say_help_frame t).1)
      (fun t => (say_help_frame t).2.1) (fun t => (say_help_frame t).2.2.1) la s).1
  · left; rfl
  · left
    exact (dispatchAction_frame get_weather (fun t => (get_weather_frame t).1)
      (fun t => (get_weather_frame t).2.1) (fun t => (get_weather_frame t).2.2.1) la s).1
  · left; rfl

/-- check_number never lengthens the buffer. -/
theorem check_number_len (lr : Nat → Bool) (la : Bool) (s : PState) :
    (check_number lr la s).dialed_number.length ≤ s.dialed_number.length := by
  rcases check_number_dialed lr la s with hc | hc <;> simp [hc]

/-- hangout either keeps the buffer (OffHook branch) or clears it through
reinit (OnHook branch). -/
theorem hangout_dialed (s : PState) :
    (hangout s).dialed_number = s.dialed_number ∨
    (hangout s).dialed_number = [] := by
  unfold hangout
  split_ifs with h
  · left
    simp [set_callbacks, release_callbacks, play_tts_sentence_frame]
  · right
    simp [cb_set_hangout, reinit]

/-- dial_detect keeps the buffer within the capacity of 3 whenever the
raw pulse count of the completing rotation is at most 20 (the physical
maximum of ten pulses seen on both edges); a larger raw count appends the
multi-character decimal string of the decoded value and can exceed it. -/
theorem dial_detect_len (lr : Nat → Bool) (la : Bool) (d : Bool) (s : PState)
    (h : s.dialed_number.length ≤ 3) (hp : s.pulses ≤ 20) :
    (dial_detect lr la d s).dialed_number.length ≤ 3 := by
  simp only [dial_detect, max_numbers]
  split_ifs
  all_goals try simpa using h
  all_goals refine le_trans (check_number_len lr la _) ?_
  all_goals simp_all
  all_goals rw [natDigits_len_one _ (by omega)]
  all_goals omega

/-- Every event delivery other than a dial-detect edge keeps the buffer
within the capacity of 3. -/
theorem step_other_len (e : Event) (s : PState)
    (hnd : ∀ lr la d, e ≠ Event.dialEdge lr la d)
    (h : s.dialed_number.length ≤ 3) :
    (step e s).dialed_number.length ≤ 3 := by
  cases e with
  | lineChange l => simpa using h
  | hangoutEdge l =>
      simp only [step]
      split_ifs with hcb
      · rcases hangout_dialed { s with pin_phone_hangout := l } with hc | hc
        · rw [hc]; simpa using h
        · rw [hc]; simp
      · simpa using h
  | dialEdge lr la d => exact absurd rfl (hnd lr la d)
  | pulseEdge =>
      simp only [step]
      split_ifs with hcb
      · unfold pulse_count
        split_ifs <;> simpa using h
      · exact h

/-- C4 (counterexample): with the buffer holding the digits 5, 5, a
rotation delivering 22 raw pulse edges decodes to the value 11 and the
source appends its decimal string character by character, so the buffer
reaches length 4 — the capacity invariant of the claim fails on the code
for malformed raw counts of 21 or more. -/
theorem C4_counterexample :
    ((dialDigit (fun _ => true) true 22
        { offHookState 3 0 ["a", "b", "c"] ["a", "b", "c"] with
            dialed_number := [5, 5] }).dialed_number = [5, 5, 1, 1]) ∧
    3 < ((dialDigit (fun _ => true) true 22
        { offHookState 3 0 ["a", "b", "c"] ["a", "b", "c"] with
            dialed_number := [5, 5] }).dialed_number).length := by decide

/-- C4 (amended): the buffer stays within the capacity of 3 across every
event delivery except a dial-detect edge whose rotation accumulated a raw
pulse count above 20: a dial event completing with raw count at most 20
(the physical maximum) preserves the bound, every other event kind
preserves it unconditionally, but a malformed raw count of 21 or more
appends the multi-digit decimal string of the decoded value and can push
the buffer past the capacity.  The fresh-start behaviour holds unchanged:
a 4th digit dialed while the buffer holds 3 digits clears the buffer at
the dial-start edge and the new digit is accepted at the dial-end edge of
the same rotation. -/
theorem C4_amended :
    (∀ (lr : Nat → Bool) (la : Bool) (d : Bool) (s : PState),
        s.dialed_number.length ≤ 3 → s.pulses ≤ 20 →
        (dial_detect lr la d s).dialed_number.length ≤ 3) ∧
    (∀ (e : Event) (s : PState), (∀ lr la d, e ≠ Event.dialEdge lr la d) →
        s.dialed_number.length ≤ 3 → (step e s).dialed_number.length ≤ 3) ∧
    (∀ (lr : Nat → Bool) (la : Bool) (s : PState) (k : Nat),
        s.pin_phone_hangout = true → s.dialed_number.length = 3 →
        1 ≤ k → k ≤ 9 →
        (dial_detect lr la true s).dialed_number = [] ∧
        (dialDigit lr la (2 * k) s).dialed_number = [k]) := by
  refine ⟨dial_detect_len, step_other_len, ?_⟩
  intro lr la s k hph hlen hk1 hk9
  constructor
  · rw [dial_start_full_eq lr la s hph (by omega)]
  · unfold dialDigit
    rw [dial_start_full_eq lr la s hph (by omega)]
    set S1 : PState :=
      { s with dialer_status := true, pulses := 0, pin_dialer_led := false,
               dialed_number := [] } with hS1
    rw [applyPulses_eq (2 * k) S1 (by simp [hS1])]
    set S2 : PState := { S1 with pulses := S1.pulses + 2 * k } with hS2
    have hdig : natDigits (S2.pulses / 2) = [k] := by
      have h1 : S2.pulses / 2 = k := by
        simp only [hS2, hS1]
        omega
      rw [h1, natDigits_digit k (by omega)]
    rw [dial_end_eq lr la S2 (by simp [hS2, hS1, hph]) (by simp [hS2, hS1])
      (by simp [hS2, hS1]; omega) (by simp [hS2, hS1]; omega)]
    rw [hdig]
    set S3 : PState :=
      { S2 with dialer_status := false,
                dialed_number := S2.dialed_number ++ [k] } with hS3
    rw [check_number_small lr la S3 (by simp [hS3, hS2, hS1, numValue]; omega)]
    simp [hS3, hS2, hS1]

/-- C4 (amended, witness): the amended statement at concrete inputs — a
digit with 8 raw pulses keeps a 2-digit buffer within capacity, a pulse
edge preserves it, and a 4th digit on the full buffer 1, 2, 3 clears it at
the dial-start edge before the digit 5 is accepted. -/
theorem C4_amended_witness :
    ((dial_detect (fun _ => true) true false
        { offHookState 3 0 ["a", "b", "c"] ["a", "b", "c"] with
            dialed_number := [1, 2], pulses := 8 }).dialed_number.length ≤ 3) ∧
    ((step Event.pulseEdge
        { offHookState 3 0 ["a", "b", "c"] ["a", "b", "c"] with
            dialed_number := [1, 2] }).dialed_number.length ≤ 3) ∧
    ((dial_detect (fun _ => true) true true
        { offHookState 3 0 ["a", "b", "c"] ["a", "b", "c"] with
            dialed_number := [1, 2, 3] }).dialed_number = []) ∧
    ((dialDigit (fun _ => true) true (2 * 5)
        { offHookState 3 0 ["a", "b", "c"] ["a", "b", "c"] with
            dialed_number := [1, 2, 3] }).dialed_number = [5]) :=
  ⟨C4_amended.1 (fun _ => true) true false _ (by decide) (by decide),
   C4_amended.2.1 Event.pulseEdge _ (fun lr la d h => Event.noConfusion h) (by decide),
   (C4_amended.2.2 (fun _ => true) true _ 5 (by decide) (by decide) (by decide)
     (by decide)).1,
   (C4_amended.2.2 (fun _ => true) true _ 5 (by decide) (by decide) (by decide)
     (by decide)).2⟩

/-- If the line pin reads low at the check after track k, the play-all
loop starting at or below position k plays no track of index above k. -/
theorem play_all_loop_bound (lr : Nat → Bool) (k : Nat) (hk : lr k = false) :
    ∀ (fuel : Nat) (s : PState), s.track_position ≤ k →
      ∀ j ∈ (play_all_loop lr fuel s).played, j ∈ s.played ∨ j ≤ k := by
  intro fuel
  induction fuel with
  | zero =>
      intro s hpos j hj
      left
      simpa [play_all_loop] using hj
  | succ n ih =>
      intro s hpos j hj
      simp only [play_all_loop] at hj
      by_cases hlt : s.track_position < s.tracks
      · rw [if_pos hlt] at hj
        by_cases hbrk : lr s.track_position = false
        · rw [if_pos hbrk] at hj
          simp at hj
          rcases hj with hj | hj
          · left; exact hj
          · right; omega
        · rw [if_neg hbrk] at hj
          have hne : s.track_position ≠ k := fun he => hbrk (by rw [he, hk])
          rcases ih _ (by simp; omega) j hj with hj2 | hj2
          · simp at hj2
            rcases hj2 with hj2 | hj2
            · left; exact hj2
            · right; omega
          · right; exact hj2
      · rw [if_neg hlt] at hj
        left; exact hj

/-- C7: if the line reads OnHook at the hang-up check after some track k,
the play-all action plays no track of index above k, and on completion the
amplifier is powered back down (given it started powered down) and the
is-playing and expected-powered flags are both false. -/
theorem C7 (lr : Nat → Bool) (k : Nat) (s : PState)
    (hk : lr k = false) (hpow : s.ampPowered = false) (hpl : s.played = []) :
    (∀ j ∈ (play_all_tracks lr s).played, j ≤ k) ∧
    (play_all_tracks lr s).is_playing = false ∧
    (play_all_tracks lr s).ampli_status = false ∧
    (play_all_tracks lr s).ampPowered = false := by
  simp only [play_all_tracks, ampli_on_off]
  set S2 : PState :=
    { s with is_playing := true, ampli_status := false,
             ampPowered := !s.ampPowered, track_position := 0 } with hS2
  have hfr := play_all_loop_frame lr s.tracks S2
  have hplay : (play_all_loop lr s.tracks S2).is_playing = true := by
    rw [hfr.2.2.2.1]
  rw [if_pos hplay]
  refine ⟨?_, by simp, by simp, ?_⟩
  · intro j hj
    have hj2 : j ∈ (play_all_loop lr s.tracks S2).played := by simpa using hj
    rcases play_all_loop_bound lr k hk s.tracks S2 (by simp [hS2]) j hj2 with hj3 | hj3
    · simp [hS2, hpl] at hj3
    · exact hj3
  · show (!(play_all_loop lr s.tracks S2).ampPowered) = false
    rw [hfr.2.2.2.2.2]
    simp [hS2, hpow]

/-- C7 (witness): with three tracks and the line dropping at the check
after track 1, only tracks 0 and 1 play and all flags end false. -/
theorem C7_witness :
    (∀ j ∈ (play_all_tracks (fun i => decide (i = 0))
        (offHookState 3 0 ["a", "b", "c"] ["a", "b", "c"])).played, j ≤ 1) ∧
    (play_all_tracks (fun i => decide (i = 0))
        (offHookState 3 0 ["a", "b", "c"] ["a", "b", "c"])).is_playing = false ∧
    (play_all_tracks (fun i => decide (i = 0))
        (offHookState 3 0 ["a", "b", "c"] ["a", "b", "c"])).ampli_status = false ∧
    (play_all_tracks (fun i => decide (i = 0))
        (offHookState 3 0 ["a", "b", "c"] ["a", "b", "c"])).ampPowered = false :=
  C7 (fun i => decide (i = 0)) 1 (offHookState 3 0 ["a", "b", "c"] ["a", "b", "c"])
    (by decide) (by decide) (by decide)

/-- Every dispatch leaves the expected-powered flag false when the action
it runs does. -/
theorem dispatchAction_ampli (act : PState → PState)
    (ha : ∀ t, (act t).ampli_status = false) (la : Bool) (s : PState) :
    (dispatchAction act la s).ampli_status = false := by
  simp only [dispatchAction, release_callbacks, cb_set_hangout, cb_set_rotary]
  split_ifs <;> simp [ha]

/-- check_number preserves falseness of the expected-powered flag. -/
theorem check_number_ampli (lr : Nat → Bool) (la : Bool) (s : PState)
    (h : s.ampli_status = false) :
    (check_number lr la s).ampli_status = false := by
  simp only [check_number]
  split_ifs
  · exact h
  · simpa [reinit] using h
  · exact dispatchAction_ampli play_track (fun t => (play_track_frame t).2.2.2) la s
  · exact dispatchAction_ampli (play_all_tracks lr)
      (fun t => (play_all_tracks_frame lr t).2.2.2) la s
  · exact dispatchAction_ampli list_all_tracks
      (fun t => (list_all_tracks_frame t).2.2.2) la s
  · exact dispatchAction_ampli play_track (fun t => (play_track_frame t).2.2.2) la _
  · exact dispatchAction_ampli say_help (fun t => (say_help_frame t).2.2.2) la s
  · simpa using h
  · exact dispatchAction_ampli get_weather (fun t => (get_weather_frame t).2.2.2) la s
  · exact h

/-- dial_detect preserves falseness of the expected-powered flag. -/
theorem dial_detect_ampli (lr : Nat → Bool) (la : Bool) (d : Bool) (s : PState)
    (h : s.ampli_status = false) :
    (dial_detect lr la d s).ampli_status = false := by
  simp only [dial_detect, max_numbers]
  split_ifs
  all_goals try simpa using h
  all_goals exact check_number_ampli lr la _ (by simpa using h)

/-- hangout always leaves the expected-powered flag false. -/
theorem hangout_ampli (s : PState) : (hangout s).ampli_status = false := by
  unfold hangout
  split_ifs with h
  · simp [set_callbacks, release_callbacks, play_tts_sentence_frame]
  · simp [cb_set_hangout, reinit, release_callbacks, play_tts_sentence_frame]

/-- One event delivery preserves falseness of the expected-powered flag. -/
theorem step_ampli (e : Event) (s : PState) (h : s.ampli_status = false) :
    (step e s).ampli_status = false := by
  cases e with
  | lineChange l => simpa using h
  | hangoutEdge l =>
      simp only [step]
      split_ifs
      · exact hangout_ampli _
      · simpa using h
  | dialEdge lr la d =>
      simp only [step]
      split_ifs with hcb
      · exact dial_detect_ampli lr la d s h
      · exact h
  | pulseEdge =>
      simp only [step]
      split_ifs with hcb
      · unfold pulse_count
        split_ifs <;> simpa using h
      · exact h

/-- Any event run preserves falseness of the expected-powered flag. -/
theorem run_ampli (es : List Event) (s : PState) (h : s.ampli_status = false) :
    (run es s).ampli_status = false := by
  induction es generalizing s with
  | nil => simpa [run] using h
  | cons e es ih =>
      have hstep : run (e :: es) s = run es (step e s) := by simp [run]
      rw [hstep]
      exact ih (step e s) (step_ampli e s h)

/-- C9: the expected-powered flag ampli_status is false after every call
of the amplifier sequencing operation, and it is false in every state
reachable from startup by any sequence of events — no operation of the
program ever sets it to true. -/
theorem C9 :
    (∀ s : PState, (ampli_on_off s).ampli_status = false) ∧
    (∀ (T : Nat) (fls tts : List String) (es : List Event),
        (run es (initState T fls tts)).ampli_status = false) := by
  constructor
  · intro s
    rfl
  · intro T fls tts es
    exact run_ampli es _ rfl

end PiRotary
